import Mathlib

/-!
Verification of the AsusRouter Home Assistant integration
(`custom_components/asusrouter/config_flow.py` and
`custom_components/asusrouter/bridge.py`).

The Python code is shallowly embedded: configuration dictionaries become
association lists over a `Value` type with Python-dict semantics
(`insert` replaces in place, `lookup` finds the unique binding), stateful
dictionary mutation is modelled with an explicit store of dictionaries,
fallible code returns `Except`, and the outcomes of the external SDK's
asynchronous calls are passed in as explicit parameters.

Constants imported from the integration's `const.py` module (which only the
two embedded files reference) are modelled from the specification where
noted.
-/

namespace AsusRouter

/-- A value stored in one of the configuration / sensor-data dictionaries:
the Python code only ever stores strings, integers, booleans and lists of
strings in them. -/
inductive Value where
  | str (s : String)
  | int (i : Int)
  | bool (b : Bool)
  | strList (l : List String)
  deriving DecidableEq, Repr

/-- Truthiness of a `Value`, as Python's `if v:` evaluates it. -/
def Value.truthy : Value → Bool
  | .str s => s ≠ ""
  | .int i => i ≠ 0
  | .bool b => b
  | .strList l => l ≠ []

/-- A Python dictionary with string keys, as an association list.  Keys are
unique in any dictionary the embedded code builds. -/
abbrev Dict := List (String × Value)

namespace Dict

/-- `d[k]` as an `Option`: the first binding of `k`. -/
def lookup : Dict → String → Option Value
  | [], _ => none
  | kv :: rest, k => if kv.1 = k then some kv.2 else lookup rest k

/-- `k in d`. -/
def member (d : Dict) (k : String) : Bool :=
  (lookup d k).isSome

/-- `d[k] = v`: replace the binding in place when the key is present
(Python keeps the key's original position), append it otherwise. -/
def insert : Dict → String → Value → Dict
  | [], k, v => [(k, v)]
  | kv :: rest, k, v => if kv.1 = k then (k, v) :: rest else kv :: insert rest k v

/-- `d.update(other)`: insert every binding of `other` in order. -/
def update (d other : Dict) : Dict :=
  other.foldl (fun acc kv => insert acc kv.1 kv.2) d

/-- `d.pop(k)`: remove the binding of `k`.  The embedded code only pops
keys that are present, so the `KeyError` case never arises. -/
def pop (d : Dict) (k : String) : Dict :=
  d.eraseP (fun kv => kv.1 = k)

end Dict

/-! ### Configuration keys

Keys re-exported by `homeassistant.const` carry their Home Assistant
values; keys of the integration's own `const.py` are modelled from the
spec's list of configuration keys. -/

def CONF_HOST : String := "host"
def CONF_USERNAME : String := "username"
def CONF_PASSWORD : String := "password"
def CONF_PORT : String := "port"
def CONF_SSL : String := "ssl"
def CONF_VERIFY_SSL : String := "verify_ssl"
def CONF_NAME : String := "name"
def CONF_SCAN_INTERVAL : String := "scan_interval"

/-- Modelled from the spec: `const.py` (absent from the sources) defines the
integration-specific configuration keys (cache time, certificate path,
confirmation flag, consider-home timeout, control/monitor toggles,
interface selection); they are distinct dictionary keys. -/
def CONF_CACHE_TIME : String := "cache_time"

def CONF_CERT_PATH : String := "cert_path"
def CONF_CONFIRM : String := "confirm"
def CONF_CONSIDER_HOME : String := "consider_home"
def CONF_ENABLE_CONTROL : String := "enable_control"
def CONF_ENABLE_MONITOR : String := "enable_monitor"
def CONF_INTERFACES : String := "interfaces"

/-- Modelled from the spec: `const.py` defines the user-facing form error
codes that `_async_check_connection` returns ("a login error yields the
wrong-credentials form error", a login block, a refused connection, a
generic error, and a success marker); they are distinct strings. -/
def RESULT_CONNECTION_REFUSED : String := "connection_refused"

def RESULT_ERROR : String := "error"
def RESULT_LOGIN_BLOCKED : String := "login_blocked"
def RESULT_SUCCESS : String := "success"
def RESULT_UNKNOWN : String := "unknown"
def RESULT_WRONG_CREDENTIALS : String := "wrong_credentials"

/-- Modelled from the spec: default values supplied by `const.py` for the
wizard's forms. -/
def DEFAULT_USERNAME : String := "admin"

def DEFAULT_PORT : Int := 0
def DEFAULT_SSL : Bool := false
def DEFAULT_VERIFY_SSL : Bool := true
def DEFAULT_CACHE_TIME : Int := 5
def DEFAULT_SCAN_INTERVAL : Int := 30
def DEFAULT_CONSIDER_HOME : Int := 45
def DEFAULT_ENABLE_CONTROL : Bool := false
def DEFAULT_ENABLE_MONITOR : Bool := true

/-- Modelled from the spec: `const.py`'s default list of network interfaces
to monitor, returned when interface discovery fails (the constant's name
carries the source's spelling). -/
def DELAULT_INTERFACES : List String := ["WAN"]

/-- Modelled from the spec: `const.py`'s fixed parameter overlays used by
the simplified setup path of `_async_check_connection`, one for SSL and one
for plain connections. -/
def SIMPLE_SETUP_PARAMETERS_ssl : Dict :=
  [(CONF_PORT, .int 8443), (CONF_VERIFY_SSL, .bool true), (CONF_CERT_PATH, .str "")]

/-- Modelled from the spec: the overlay for the no-SSL simplified setup. -/
def SIMPLE_SETUP_PARAMETERS_no_ssl : Dict :=
  [(CONF_PORT, .int 80)]

/-! ### The wizard's forms (`config_flow.py`, `_create_form_*`)

Each schema field is embedded as its key, whether it is `vol.Required`,
and the default value computed from the submitted `user_input`. -/

/-- One field of a voluptuous form schema. -/
structure FormField where
  key : String
  required : Bool
  default : Value
  deriving DecidableEq, Repr

/-- `_create_form_discovery`. -/
def _create_form_discovery (user_input : Dict) : List FormField :=
  [⟨CONF_HOST, true, (Dict.lookup user_input CONF_HOST).getD (.str "")⟩]

/-- `_create_form_credentials`. -/
def _create_form_credentials (user_input : Dict) : List FormField :=
  [⟨CONF_USERNAME, true, (Dict.lookup user_input CONF_USERNAME).getD (.str DEFAULT_USERNAME)⟩,
   ⟨CONF_PASSWORD, true, (Dict.lookup user_input CONF_PASSWORD).getD (.str "")⟩,
   ⟨CONF_SSL, false, (Dict.lookup user_input CONF_SSL).getD (.bool DEFAULT_SSL)⟩]

/-- `_create_form_device`. -/
def _create_form_device (user_input : Dict) : List FormField :=
  [⟨CONF_USERNAME, true, (Dict.lookup user_input CONF_USERNAME).getD (.str DEFAULT_USERNAME)⟩,
   ⟨CONF_PASSWORD, true, (Dict.lookup user_input CONF_PASSWORD).getD (.str "")⟩,
   ⟨CONF_PORT, false, (Dict.lookup user_input CONF_PORT).getD (.int DEFAULT_PORT)⟩,
   ⟨CONF_SSL, false, (Dict.lookup user_input CONF_SSL).getD (.bool DEFAULT_SSL)⟩,
   ⟨CONF_VERIFY_SSL, false, (Dict.lookup user_input CONF_VERIFY_SSL).getD (.bool DEFAULT_VERIFY_SSL)⟩,
   ⟨CONF_CERT_PATH, false, (Dict.lookup user_input CONF_CERT_PATH).getD (.str "")⟩]

/-- `_create_form_operation_mode`.  The `CONF_ENABLE_MONITOR` field is
commented out in the source, so the schema holds only the control toggle. -/
def _create_form_operation_mode (user_input : Dict) : List FormField :=
  [⟨CONF_ENABLE_CONTROL, true, (Dict.lookup user_input CONF_ENABLE_CONTROL).getD (.bool DEFAULT_ENABLE_CONTROL)⟩]

/-- `_create_form_times`. -/
def _create_form_times (user_input : Dict) : List FormField :=
  [⟨CONF_CACHE_TIME, true, (Dict.lookup user_input CONF_CACHE_TIME).getD (.int DEFAULT_CACHE_TIME)⟩,
   ⟨CONF_SCAN_INTERVAL, true, (Dict.lookup user_input CONF_SCAN_INTERVAL).getD (.int DEFAULT_SCAN_INTERVAL)⟩,
   ⟨CONF_CONSIDER_HOME, true, (Dict.lookup user_input CONF_CONSIDER_HOME).getD (.int DEFAULT_CONSIDER_HOME)⟩]

/-- `_create_form_interfaces`: a single multi-select field keyed
`CONF_INTERFACES` whose default is the `default` argument (the
multi-select's choices add no keys). -/
def _create_form_interfaces (dflt : List String) : List FormField :=
  [⟨CONF_INTERFACES, true, .strList dflt⟩]

/-- `_create_form_name`. -/
def _create_form_name (user_input : Dict) : List FormField :=
  [⟨CONF_NAME, false, (Dict.lookup user_input CONF_NAME).getD (.str "")⟩]

/-- `_create_form_confirmation`. -/
def _create_form_confirmation (user_input : Dict) : List FormField :=
  [⟨CONF_CONFIRM, false, (Dict.lookup user_input CONF_CONFIRM).getD (.bool false)⟩]

/-- The keys a form collects. -/
def formKeys (f : List FormField) : List String :=
  f.map FormField.key

/-- All keys collected by the setup wizard's forms, at the given submitted
inputs: discovery, credentials, device, operation-mode, times, interfaces
and name — every form a step of `ASUSRouterFlowHandler`'s table shows and
whose submission is merged into the persisted configs/options (the
confirmation form belongs to the options flow only). -/
def wizardCollectedKeys (u₁ u₂ u₃ u₄ u₅ u₆ : Dict) (dflt : List String) : List String :=
  formKeys (_create_form_discovery u₁) ++
  formKeys (_create_form_credentials u₂) ++
  formKeys (_create_form_device u₃) ++
  formKeys (_create_form_operation_mode u₄) ++
  formKeys (_create_form_times u₅) ++
  formKeys (_create_form_interfaces dflt) ++
  formKeys (_create_form_name u₆)

/-- The configuration-key surface exactly as the claim (and the spec's
external-interface section) lists it: host, credentials, port, SSL and
verify-SSL with certificate path, cache time, scan interval, consider-home
timeout, enabled interfaces, and both a control toggle and a monitor
toggle. -/
def claimedWizardKeys : List String :=
  [CONF_HOST, CONF_USERNAME, CONF_PASSWORD, CONF_PORT, CONF_SSL,
   CONF_VERIFY_SSL, CONF_CERT_PATH, CONF_CACHE_TIME, CONF_SCAN_INTERVAL,
   CONF_CONSIDER_HOME, CONF_INTERFACES, CONF_ENABLE_CONTROL,
   CONF_ENABLE_MONITOR]

/-- The claimed surface amended as the source forces: the monitor toggle's
schema field is commented out of `_create_form_operation_mode`, so the
wizard collects every listed key except `CONF_ENABLE_MONITOR`; and the
name step's form collects the device name (`CONF_NAME`) into the persisted
options, a key the claimed list omits. -/
def amendedWizardKeys : List String :=
  [CONF_HOST, CONF_USERNAME, CONF_PASSWORD, CONF_PORT, CONF_SSL,
   CONF_VERIFY_SSL, CONF_CERT_PATH, CONF_CACHE_TIME, CONF_SCAN_INTERVAL,
   CONF_CONSIDER_HOME, CONF_INTERFACES, CONF_ENABLE_CONTROL, CONF_NAME]

/-! ### Decimal rendering of port numbers

`bridge.py` builds sensor keys with `"{}_{}".format(type, port)` where the
SDK's port identifiers are numbers; `natStr` is the decimal rendering the
format call performs.  The first argument of `natCharsAux` is structural
fuel (`n + 1` always suffices). -/

/-- Digits of `n` in order, with fuel. -/
def natCharsAux : Nat → Nat → List Char
  | 0, _ => []
  | fuel + 1, n =>
    if n < 10 then [Nat.digitChar n]
    else natCharsAux fuel (n / 10) ++ [Nat.digitChar (n % 10)]

/-- `"{}".format(n)` for a number `n`. -/
def natStr (n : Nat) : String := ⟨natCharsAux (n + 1) n⟩

/-! ### Sensor categories and lists (`bridge.py`) -/

/-- Modelled from the spec: `const.py`'s list of port types whose status
`_get_ports` reports. -/
def SENSORS_PORTS : List String := ["LAN", "USB", "WAN"]

/-- Modelled from the spec: `const.py`'s per-interface network statistic
suffixes. -/
def SENSORS_NETWORK_STAT : List String := ["rx", "tx", "rx_speed", "tx_speed"]

/-- Modelled from the spec: `const.py`'s RAM sensor list. -/
def SENSORS_RAM : List String := ["free", "total", "usage", "used"]

/-- Modelled from the spec: `const.py`'s miscellaneous sensor list (boot
time). -/
def SENSORS_MISC : List String := ["boottime"]

/-- Modelled from the spec: `const.py`'s WAN sensor list. -/
def SENSORS_WAN : List String := ["status", "ip", "ip_type", "gateway", "mask", "dns", "private_subnet"]

/-- Modelled from the spec: `const.py`'s six sensor category names (CPU,
RAM, network statistics, miscellaneous, ports, WAN); they are distinct
strings. -/
def SENSORS_TYPE_CPU : String := "cpu"

def SENSORS_TYPE_RAM : String := "ram"
def SENSORS_TYPE_NETWORK_STAT : String := "network_stat"
def SENSORS_TYPE_MISC : String := "misc"
def SENSORS_TYPE_PORTS : String := "ports"
def SENSORS_TYPE_WAN : String := "wan"

/-- The SDK's `async_get_ports` data for one port type: the numeric port
identifiers with their values (a Python dictionary, so identifiers are
unique). -/
abbrev PortData := List (Nat × Int)

/-- The SDK's `async_get_ports` result: port data per port type. -/
abbrev PortsRaw := List (String × PortData)

/-- `type in raw` / `raw[type]`. -/
def portsLookup (raw : PortsRaw) (t : String) : Option PortData :=
  (raw.find? (fun p => p.1 = t)).map Prod.snd

/-- The key `"{}_total".format(type)`. -/
def totalKey (t : String) : String := t ++ "_total"

/-- The key `"{}_{}".format(type, port)`. -/
def portKey (t : String) (p : Nat) : String := t ++ "_" ++ natStr p

/-- Read an integer entry of the data dictionary (the running
`data["{}_total"]` counter, which always holds an integer when read). -/
def getInt (d : Dict) (k : String) : Int :=
  match Dict.lookup d k with
  | some (.int i) => i
  | _ => 0

/-- The inner loop of `_get_ports` over one type's ports: store the
per-port value, then add it to the running total (in that order, as the
source does). -/
def portEntries (t : String) (ports : PortData) (d : Dict) : Dict :=
  ports.foldl (fun d pv =>
    let d₁ := Dict.insert d (portKey t pv.1) (.int pv.2)
    Dict.insert d₁ (totalKey t) (.int (getInt d₁ (totalKey t) + pv.2))) d

/-- One iteration of `_get_ports`' outer loop: skip a type absent from the
SDK data; otherwise zero the total, accumulate the ports, and set the bare
type flag when the total is positive. -/
def portsBlock (raw : PortsRaw) (d : Dict) (t : String) : Dict :=
  match portsLookup raw t with
  | none => d
  | some ports =>
    let d₁ := Dict.insert d (totalKey t) (.int 0)
    let d₂ := portEntries t ports d₁
    if 0 < getInt d₂ (totalKey t) then Dict.insert d₂ t (.bool true) else d₂

/-- `AsusRouterBridgeHTTP._get_ports`, with the SDK call's outcome passed
in: an `OSError`/`ValueError` from the SDK is re-raised as `UpdateFailed`,
otherwise the data dictionary is assembled per port type. -/
def _get_ports (raw : Except String PortsRaw) : Except String Dict :=
  match raw with
  | .error e => .error ("UpdateFailed: " ++ e)
  | .ok r => .ok (SENSORS_PORTS.foldl (portsBlock r) [])

/-! ### Distinctness of the generated port keys -/

/-- The keys `_get_ports` can write for port type `t`. -/
def isBlockKey (t k : String) : Prop :=
  k = t ∨ k = totalKey t ∨ ∃ p : Nat, k = portKey t p

/-- What the claim states `_get_ports` produces for one port type: present
types get a `{type}_total` sum entry, one `{type}_{port}` entry per port,
and the bare-type flag exactly when the sum is positive; absent types
contribute no entries. -/
def portsTypeSpec (raw : PortsRaw) (data : Dict) (t : String) : Prop :=
  match portsLookup raw t with
  | some ports =>
      Dict.lookup data (totalKey t) = some (.int (ports.map Prod.snd).sum) ∧
      (∀ pv ∈ ports, Dict.lookup data (portKey t pv.1) = some (.int pv.2)) ∧
      (0 < (ports.map Prod.snd).sum → Dict.lookup data t = some (.bool true)) ∧
      ((ports.map Prod.snd).sum ≤ 0 → Dict.lookup data t = none)
  | none =>
      Dict.lookup data t = none ∧ Dict.lookup data (totalKey t) = none ∧
      ∀ p : Nat, Dict.lookup data (portKey t p) = none

/-! ### Sensor discovery (`bridge.py`) and interface discovery
(`config_flow.py`)

Each embedding takes the outcome of the underlying SDK call as an
`Except` parameter; the function's own result is again an `Except`, so an
exception it would propagate is representable. -/

/-- `AsusRouterBridgeHTTP._get_cpu_sensors`: on any exception from
`async_get_cpu_labels`, log a warning and fall back to `["total"]`. -/
def _get_cpu_sensors (labels : Except String (List String)) :
    Except String (List String) :=
  match labels with
  | .ok sensors => .ok sensors
  | .error _ => .ok ["total"]

/-- `AsusRouterBridgeHTTP._get_network_stat_sensors`: build
`{label}_{el}` names per interface label; `sensors = []` is assigned
before the SDK call, so on any exception the empty list assembled so far
is returned. -/
def _get_network_stat_sensors (labels : Except String (List String)) :
    Except String (List String) :=
  match labels with
  | .ok ls =>
      .ok (ls.foldl (fun acc label =>
        SENSORS_NETWORK_STAT.foldl (fun acc el => acc ++ [label ++ "_" ++ el]) acc) [])
  | .error _ => .ok []

/-- `AsusRouterBridgeHTTP._get_ports_sensors`: names of the available port
sensors; `sensors = []` is assigned before the SDK call, so on any
exception the empty list assembled so far is returned. -/
def _get_ports_sensors (raw : Except String PortsRaw) :
    Except String (List String) :=
  match raw with
  | .ok data =>
      .ok (SENSORS_PORTS.foldl (fun acc t =>
        match portsLookup data t with
        | none => acc
        | some ports =>
            (acc ++ [t, totalKey t]) ++ ports.map (fun pv => portKey t pv.1)) [])
  | .error _ => .ok []

/-- `_async_get_network_interfaces` of `config_flow.py`: return the SDK's
interface labels after disconnecting; on any exception, log (the log line
itself indexes `configs[CONF_HOST]`, raising `KeyError` when the host key
is absent) and return the default interface list. -/
def _async_get_network_interfaces (configs : Dict)
    (labels : Except String (List String)) (disconnect : Except String Unit) :
    Except String (List String) :=
  let handler : Except String (List String) :=
    if Dict.member configs CONF_HOST then .ok DELAULT_INTERFACES
    else .error "KeyError: host"
  match labels with
  | .error _ => handler
  | .ok ls =>
      match disconnect with
      | .error _ => handler
      | .ok _ => .ok ls

/-- The polling callback stored with each sensor category by
`async_get_available_sensors`. -/
inductive PollMethod where
  | getCpu
  | getRam
  | getNetworkStat
  | getMisc
  | getPorts
  | getWan
  deriving DecidableEq, Repr

/-- One entry of `async_get_available_sensors`' result: the category's
sensor list and its polling callback. -/
structure SensorGroup where
  sensors : List String
  pollMethod : PollMethod
  deriving DecidableEq, Repr

/-- `AsusRouterBridgeHTTP.async_get_available_sensors`: the dictionary of
the six sensor categories, in the source's order, with the discovery
helpers' results for CPU, network statistics and ports. -/
def async_get_available_sensors (cpuLabels netLabels : Except String (List String))
    (portsRaw : Except String PortsRaw) :
    Except String (List (String × SensorGroup)) := do
  let cpu ← _get_cpu_sensors cpuLabels
  let net ← _get_network_stat_sensors netLabels
  let ports ← _get_ports_sensors portsRaw
  return [(SENSORS_TYPE_CPU, ⟨cpu, .getCpu⟩),
          (SENSORS_TYPE_RAM, ⟨SENSORS_RAM, .getRam⟩),
          (SENSORS_TYPE_NETWORK_STAT, ⟨net, .getNetworkStat⟩),
          (SENSORS_TYPE_MISC, ⟨SENSORS_MISC, .getMisc⟩),
          (SENSORS_TYPE_PORTS, ⟨ports, .getPorts⟩),
          (SENSORS_TYPE_WAN, ⟨SENSORS_WAN, .getWan⟩)]

/-! ### The connection check (`config_flow.py`, `_async_check_connection`) -/

/-- A Python exception the embedded flow code can raise itself:
`ValueError` from `async_select_step`, `KeyError` from indexing a
dictionary with a missing key. -/
inductive PyErr where
  | valueError (msg : String)
  | keyError (key : String)
  deriving DecidableEq, Repr

/-- The outcome of the bridge's `async_connect` call: success, or one of
the external SDK's exception types. -/
inductive ConnectOutcome where
  | connected (serial : Option String)
  | loginError
  | loginBlockError (timeout : Nat)
  | connectionError
  | otherError
  deriving DecidableEq, Repr

/-- The form error code `_async_check_connection` maps each `async_connect`
exception type to (none for a successful connect). -/
def connectErrorCode : ConnectOutcome → Option String
  | .connected _ => none
  | .loginError => some RESULT_WRONG_CREDENTIALS
  | .loginBlockError _ => some RESULT_LOGIN_BLOCKED
  | .connectionError => some RESULT_CONNECTION_REFUSED
  | .otherError => some RESULT_UNKNOWN

/-- The externally observable actions of `_async_check_connection`, in
order: constructing the bridge, awaiting `async_connect`, the `finally`
cleanup, and the final disconnect of the success path. -/
inductive Effect where
  | bridgeConstructed
  | connectAttempted
  | cleaned
  | disconnected
  deriving DecidableEq, Repr

/-- The dictionary `_async_check_connection` returns: either
`{"errors": code}` or `{"unique_id": serial, "configs": remaining}`. -/
inductive CheckResult where
  | errors (code : String)
  | success (uniqueId : Option String) (configs : Dict)
  deriving DecidableEq, Repr

/-- A store of Python dictionary objects; a reference is an index into the
store.  The `configs` and `options` arguments are passed by reference, so
the code's dictionary mutations are modelled as store updates. -/
abbrev Store := List Dict

/-- Dereference (a dangling reference reads as an empty dictionary; the
theorems assume references are valid). -/
def Store.read : Store → Nat → Dict
  | [], _ => []
  | d :: _, 0 => d
  | _ :: xs, r + 1 => read xs r

/-- Mutate the dictionary behind a reference. -/
def Store.write : Store → Nat → Dict → Store
  | [], _, _ => []
  | _ :: xs, 0, d => d :: xs
  | x :: xs, r + 1, d => x :: write xs r d

/-- Allocate a fresh dictionary (`dict.copy()` creates one). -/
def Store.alloc (st : Store) (d : Dict) : Store × Nat := (st ++ [d], st.length)

/-- `_async_check_connection` of `config_flow.py`.  `st0` is the store,
`configsRef` and `optionsRef` the caller's two dictionary arguments, `oc`
the outcome of the bridge's `async_connect` call.  The bridge class is
modelled from the spec, which says the flow "probes connectivity via the
bridge" (`config_flow.py` imports it under the name `ARBridge`, which
`bridge.py` does not define — see `bridge_import_unresolved`): its
construction is recorded as an effect and its `async_connect` outcome is
the `oc` parameter.  Returns the final store, the returned dictionary (or
the raised exception), and the effect trace. -/
def checkConnectionST (st0 : Store) (configsRef optionsRef : Nat) (simple : Bool)
    (oc : ConnectOutcome) : Store × Except PyErr CheckResult × List Effect :=
  -- configs_to_use = configs.copy()
  let ap := Store.alloc st0 (Store.read st0 configsRef)
  let st1 := ap.1
  let ctuRef := ap.2
  -- configs_to_use.update(options)
  let st2 := Store.write st1 ctuRef
    (Dict.update (Store.read st1 ctuRef) (Store.read st1 optionsRef))
  let ctu := Store.read st2 ctuRef
  -- if not CONF_HOST in configs_to_use: return {"errors": RESULT_ERROR}
  if Dict.member ctu CONF_HOST = false then
    (st2, .ok (.errors RESULT_ERROR), [])
  else
    -- if simple: configs_to_use.update(SIMPLE_SETUP_PARAMETERS[...] by configs_to_use[CONF_SSL])
    match (if simple then
            match Dict.lookup ctu CONF_SSL with
            | none => Except.error (PyErr.keyError CONF_SSL)
            | some v => Except.ok (Store.write st2 ctuRef
                (Dict.update ctu (if v.truthy then SIMPLE_SETUP_PARAMETERS_ssl
                                  else SIMPLE_SETUP_PARAMETERS_no_ssl)))
          else Except.ok st2) with
    | .error e => (st2, .error e, [])
    | .ok st3 =>
      -- api = ARBridge(hass, configs_to_use); try: await api.async_connect() ...
      match oc with
      | .loginError =>
          (st3, .ok (.errors RESULT_WRONG_CREDENTIALS),
           [.bridgeConstructed, .connectAttempted, .cleaned])
      | .loginBlockError _ =>
          (st3, .ok (.errors RESULT_LOGIN_BLOCKED),
           [.bridgeConstructed, .connectAttempted, .cleaned])
      | .connectionError =>
          (st3, .ok (.errors RESULT_CONNECTION_REFUSED),
           [.bridgeConstructed, .connectAttempted, .cleaned])
      | .otherError =>
          (st3, .ok (.errors RESULT_UNKNOWN),
           [.bridgeConstructed, .connectAttempted, .cleaned])
      | .connected serial =>
          -- for item in configs: configs_to_use.pop(item); result["configs"] = configs_to_use
          let final := (Store.read st0 configsRef).foldl
            (fun d kv => Dict.pop d kv.1) (Store.read st3 ctuRef)
          let st4 := Store.write st3 ctuRef final
          (st4, .ok (.success serial final),
           [.bridgeConstructed, .connectAttempted, .cleaned, .disconnected])

/-! ### Step selection (`config_flow.py`, `ASUSRouterFlowHandler`) -/

/-- `_check_errors`: true when `errors["base"]` exists and equals neither
`RESULT_SUCCESS` nor the empty string. -/
def _check_errors (errors : Dict) : Bool :=
  match Dict.lookup errors "base" with
  | some v => v ≠ .str RESULT_SUCCESS && v ≠ .str ""
  | none => false

/-- The steps that appear as targets in the setup wizard's step table. -/
inductive Step where
  | credentials
  | device
  | operation_mode
  | times
  | interfaces
  | name
  | finish
  deriving DecidableEq, Repr

/-- The step table `self._steps` built by `ASUSRouterFlowHandler.__init__`:
each completed step name mapped to the next step to invoke. -/
def flowSteps : List (String × Step) :=
  [("discovery", .credentials),
   ("credentials", .operation_mode),
   ("credentials_error", .device),
   ("device", .operation_mode),
   ("operation_mode", .times),
   ("times", .interfaces),
   ("interfaces", .name),
   ("name", .finish)]

/-- `last_step in self._steps` and `self._steps[key]`. -/
def stepLookup (table : List (String × Step)) (k : String) : Option Step :=
  (table.find? (fun p => p.1 = k)).map Prod.snd

/-- `async_select_step`: a falsy `last_step` (None or the empty string)
raises `ValueError`; a step name missing from the table raises
`ValueError`; when `_check_errors` holds the `"{}_error"` entry is indexed
(a `KeyError` when absent), otherwise the completed step's successor is
invoked. -/
def selectStep (table : List (String × Step)) (lastStep : Option String)
    (errors : Dict) : Except PyErr Step :=
  match lastStep with
  | none => .error (.valueError "Step name was not provided")
  | some s =>
      if s = "" then .error (.valueError "Step name was not provided")
      else
        match stepLookup table s with
        | some nxt =>
            if _check_errors errors then
              match stepLookup table (s ++ "_error") with
              | some nxtErr => .ok nxtErr
              | none => .error (.keyError (s ++ "_error"))
            else .ok nxt
        | none => .error (.valueError ("Unknown value of last_step: " ++ s))

/-- How a step submission continues: dispatch into the step selected by
`async_select_step`, or show a form again with the given errors. -/
inductive FlowAction where
  | goToStep (s : Step)
  | showForm (stepId : String) (errors : Dict)
  deriving DecidableEq, Repr

/-- The submission path of `async_step_credentials` (`user_input` truthy),
with the result of `_async_check_connection` passed in: an error result
sets `errors["base"]` and, unless the code is wrong-credentials or
login-blocked, dispatches via `async_select_step`; those two codes fall
through to re-showing the credentials form carrying the error; a success
result dispatches with no errors. -/
def stepCredentialsSubmit (checkRes : CheckResult) : Except PyErr FlowAction :=
  match checkRes with
  | .errors code =>
      let errors : Dict := Dict.insert [] "base" (.str code)
      if code ≠ RESULT_WRONG_CREDENTIALS ∧ code ≠ RESULT_LOGIN_BLOCKED then
        (selectStep flowSteps (some "credentials") errors).map FlowAction.goToStep
      else
        .ok (.showForm "credentials" errors)
  | .success _ _ =>
      (selectStep flowSteps (some "credentials") []).map FlowAction.goToStep

/-! ### Names at the `config_flow.py` / `bridge.py` boundary -/

/-- The class names `bridge.py` defines at module level
(`AsusRouterBridge` at line 46 and `AsusRouterBridgeHTTP` at line 125). -/
def bridgePyDefinedNames : List String :=
  ["AsusRouterBridge", "AsusRouterBridgeHTTP"]

/-- The name `config_flow.py` line 65 imports from the bridge module
(`from .bridge import ARBridge`) and calls to construct the bridge in
`_async_check_connection` and `_async_get_network_interfaces`. -/
def configFlowBridgeImport : String := "ARBridge"


/-! ## Theorems -/

theorem Dict.lookup_insert_self (d : Dict) (k : String) (v : Value) :
    Dict.lookup (Dict.insert d k v) k = some v := by
  induction d with
  | nil => simp [Dict.insert, Dict.lookup]
  | cons kv rest ih =>
    by_cases h : kv.1 = k
    · simp [Dict.insert, h, Dict.lookup]
    · simp [Dict.insert, h, Dict.lookup, ih]

theorem Dict.lookup_insert_ne (d : Dict) (k k' : String) (v : Value) (h : k ≠ k') :
    Dict.lookup (Dict.insert d k v) k' = Dict.lookup d k' := by
  induction d with
  | nil => simp [Dict.insert, Dict.lookup, h]
  | cons kv rest ih =>
    by_cases hk : kv.1 = k
    · subst hk; simp [Dict.insert, Dict.lookup, h]
    · simp [Dict.insert, hk, Dict.lookup, ih]

theorem natCharsAux_fuel (n : Nat) :
    ∀ f f', n < f → n < f' → natCharsAux f n = natCharsAux f' n := by
  induction n using Nat.strong_induction_on with
  | _ n ih =>
    intro f f' hf hf'
    match f, f' with
    | g + 1, g' + 1 =>
      by_cases h : n < 10
      · simp [natCharsAux, h]
      · have hdiv : n / 10 < n := Nat.div_lt_self (by omega) (by omega)
        simp only [natCharsAux, if_neg h]
        rw [ih (n / 10) hdiv g g' (by omega) (by omega)]

theorem natCharsAux_ne_nil (f n : Nat) (h : n < f) : natCharsAux f n ≠ [] := by
  match f with
  | g + 1 =>
    by_cases h10 : n < 10
    · simp [natCharsAux, h10]
    · simp [natCharsAux, h10]

theorem natCharsAux_mem (f : Nat) :
    ∀ n c, c ∈ natCharsAux f n → ∃ d, d < 10 ∧ c = Nat.digitChar d := by
  induction f with
  | zero => intro n c hc; simp [natCharsAux] at hc
  | succ g ih =>
    intro n c hc
    by_cases h10 : n < 10
    · simp [natCharsAux, h10] at hc
      exact ⟨n, h10, hc⟩
    · simp [natCharsAux, h10] at hc
      rcases hc with hc | hc
      · exact ih _ _ hc
      · exact ⟨n % 10, Nat.mod_lt _ (by omega), hc⟩

theorem digitChar_inj_lt : ∀ d, d < 10 → ∀ e, e < 10 →
    Nat.digitChar d = Nat.digitChar e → d = e := by decide

theorem digitChar_ne_t : ∀ d, d < 10 → Nat.digitChar d ≠ 't' := by decide

theorem natStr_ne_total (n : Nat) : natStr n ≠ "total" := by
  intro h
  have hd : natCharsAux (n + 1) n = "total".data := congrArg String.data h
  have ht : 't' ∈ natCharsAux (n + 1) n := by
    rw [hd]; decide
  obtain ⟨d, hdlt, hdc⟩ := natCharsAux_mem (n + 1) n 't' ht
  exact digitChar_ne_t d hdlt hdc.symm

theorem natStr_injective : ∀ m n : Nat, natStr m = natStr n → m = n := by
  intro m
  induction m using Nat.strong_induction_on with
  | _ m ih =>
    intro n h
    have hd : natCharsAux (m + 1) m = natCharsAux (n + 1) n := congrArg String.data h
    by_cases hm : m < 10 <;> by_cases hn : n < 10
    · simp only [natCharsAux, if_pos hm, if_pos hn, List.cons.injEq] at hd
      exact digitChar_inj_lt m hm n hn hd.1
    · exfalso
      simp only [natCharsAux, if_pos hm, if_neg hn] at hd
      have hlen := congrArg List.length hd
      simp [List.length_append] at hlen
      exact natCharsAux_ne_nil n (n / 10) (Nat.div_lt_self (by omega) (by omega)) hlen
    · exfalso
      simp only [natCharsAux, if_neg hm, if_pos hn] at hd
      have hlen := congrArg List.length hd
      simp [List.length_append] at hlen
      exact natCharsAux_ne_nil m (m / 10) (Nat.div_lt_self (by omega) (by omega)) hlen
    · simp only [natCharsAux, if_neg hm, if_neg hn] at hd
      obtain ⟨hpre, hsuf⟩ := List.append_inj' hd (by simp)
      have hmod : m % 10 = n % 10 := by
        have hc : Nat.digitChar (m % 10) = Nat.digitChar (n % 10) := by
          simpa using hsuf
        exact digitChar_inj_lt _ (Nat.mod_lt _ (by omega)) _ (Nat.mod_lt _ (by omega)) hc
      have hdiv : m / 10 = n / 10 := by
        apply ih (m / 10) (Nat.div_lt_self (by omega) (by omega))
        show natStr (m / 10) = natStr (n / 10)
        unfold natStr
        apply congrArg String.mk
        rw [natCharsAux_fuel (m / 10) (m / 10 + 1) m (by omega) (by omega),
            natCharsAux_fuel (n / 10) (n / 10 + 1) n (by omega) (by omega)]
        exact hpre
      have h1 := Nat.div_add_mod m 10
      have h2 := Nat.div_add_mod n 10
      omega

theorem string_append_left_cancel {s t u : String} (h : s ++ t = s ++ u) : t = u := by
  apply String.ext
  have hd := congrArg String.data h
  rw [String.data_append, String.data_append] at hd
  exact List.append_cancel_left hd

theorem totalKey_ne_portKey (t : String) (p : Nat) : totalKey t ≠ portKey t p := by
  intro h
  have h' : (t ++ "_") ++ "total" = (t ++ "_") ++ natStr p := by
    rw [String.append_assoc]
    exact h
  exact natStr_ne_total p (string_append_left_cancel h').symm

theorem ne_totalKey_self (t : String) : t ≠ totalKey t := by
  intro h
  have hd := congrArg (fun s : String => s.data.length) h
  simp only [totalKey, String.data_append] at hd
  simp at hd

theorem ne_portKey_self (t : String) (p : Nat) : t ≠ portKey t p := by
  intro h
  have hd := congrArg (fun s : String => s.data.length) h
  simp only [portKey, String.data_append] at hd
  simp [List.length_append] at hd

theorem portKey_inj (t : String) (p q : Nat) (h : portKey t p = portKey t q) : p = q := by
  have h' : (t ++ "_") ++ natStr p = (t ++ "_") ++ natStr q := by
    simpa [portKey, String.append_assoc] using h
  exact natStr_injective p q (string_append_left_cancel h')

theorem blockKey_head (t k : String) (c : Char) (cs : List Char) (h : t.data = c :: cs)
    (hk : isBlockKey t k) : k.data.head? = some c := by
  rcases hk with rfl | rfl | ⟨p, rfl⟩
  · rw [h]; rfl
  · simp [totalKey, String.data_append, h]
  · simp [portKey, String.data_append, h]

theorem blockKey_disjoint (t t' : String) (c c' : Char) (cs cs' : List Char)
    (ht : t.data = c :: cs) (ht' : t'.data = c' :: cs') (hcc : c ≠ c')
    (k : String) (hk : isBlockKey t' k) : ¬ isBlockKey t k := by
  intro hk'
  have h1 := blockKey_head t k c cs ht hk'
  have h2 := blockKey_head t' k c' cs' ht' hk
  rw [h1] at h2
  exact hcc (Option.some.inj h2)

theorem portEntries_frame (t : String) :
    ∀ (ports : PortData) (d : Dict) (k : String), k ≠ totalKey t →
      (∀ pv ∈ ports, k ≠ portKey t pv.1) →
      Dict.lookup (portEntries t ports d) k = Dict.lookup d k := by
  intro ports
  induction ports with
  | nil => intro d k _ _; rfl
  | cons pv rest ih =>
    intro d k hk hp
    have hstep : portEntries t (pv :: rest) d
        = portEntries t rest
            (Dict.insert (Dict.insert d (portKey t pv.1) (.int pv.2)) (totalKey t)
              (.int (getInt (Dict.insert d (portKey t pv.1) (.int pv.2)) (totalKey t) + pv.2))) := rfl
    rw [hstep, ih _ k hk (fun q hq => hp q (List.mem_cons_of_mem _ hq)),
        Dict.lookup_insert_ne _ _ _ _ (Ne.symm hk),
        Dict.lookup_insert_ne _ _ _ _ (Ne.symm (hp pv (List.mem_cons_self _ _)))]

theorem portEntries_spec (t : String) :
    ∀ (ports : PortData) (d : Dict) (acc : Int),
      (ports.map (fun pv => pv.1)).Nodup →
      Dict.lookup d (totalKey t) = some (.int acc) →
      Dict.lookup (portEntries t ports d) (totalKey t)
          = some (.int (acc + (ports.map Prod.snd).sum)) ∧
      ∀ pv ∈ ports, Dict.lookup (portEntries t ports d) (portKey t pv.1) = some (.int pv.2) := by
  intro ports
  induction ports with
  | nil =>
    intro d acc _ hacc
    refine ⟨by simpa [portEntries] using hacc, ?_⟩
    intro pv hpv
    simp at hpv
  | cons pv rest ih =>
    intro d acc hnodup hacc
    have hg : getInt (Dict.insert d (portKey t pv.1) (.int pv.2)) (totalKey t) = acc := by
      simp only [getInt,
        Dict.lookup_insert_ne _ _ _ _ (Ne.symm (totalKey_ne_portKey t pv.1)), hacc]
    have hstep : portEntries t (pv :: rest) d
        = portEntries t rest
            (Dict.insert (Dict.insert d (portKey t pv.1) (.int pv.2)) (totalKey t)
              (.int (getInt (Dict.insert d (portKey t pv.1) (.int pv.2)) (totalKey t) + pv.2))) := rfl
    have hacc₂ : Dict.lookup
        (Dict.insert (Dict.insert d (portKey t pv.1) (.int pv.2)) (totalKey t)
          (.int (getInt (Dict.insert d (portKey t pv.1) (.int pv.2)) (totalKey t) + pv.2)))
        (totalKey t) = some (.int (acc + pv.2)) := by
      rw [Dict.lookup_insert_self, hg]
    have hnd : (rest.map (fun pv => pv.1)).Nodup := (List.nodup_cons.mp hnodup).2
    have hmem : pv.1 ∉ rest.map (fun pv => pv.1) := (List.nodup_cons.mp hnodup).1
    obtain ⟨htot, hper⟩ := ih _ (acc + pv.2) hnd hacc₂
    refine ⟨?_, ?_⟩
    · rw [hstep, htot]
      have harith : acc + pv.2 + (rest.map Prod.snd).sum
          = acc + ((pv :: rest).map Prod.snd).sum := by
        simp [List.sum_cons]
        ring
      rw [harith]
    · intro q hq
      rcases List.mem_cons.mp hq with rfl | hq'
      · rw [hstep,
          portEntries_frame t rest _ (portKey t q.1)
            (Ne.symm (totalKey_ne_portKey t q.1))
            (fun r hr heq => hmem (by
              rw [portKey_inj t q.1 r.1 heq]
              exact List.mem_map_of_mem _ hr)),
          Dict.lookup_insert_ne _ _ _ _ (totalKey_ne_portKey t q.1),
          Dict.lookup_insert_self]
      · exact hper q hq'

theorem portsBlock_frame (raw : PortsRaw) (d : Dict) (t k : String)
    (hk : ¬ isBlockKey t k) : Dict.lookup (portsBlock raw d t) k = Dict.lookup d k := by
  have hk1 : k ≠ t := fun h => hk (Or.inl h)
  have hk2 : k ≠ totalKey t := fun h => hk (Or.inr (Or.inl h))
  cases hf : portsLookup raw t with
  | none =>
    have hid : portsBlock raw d t = d := by unfold portsBlock; rw [hf]
    rw [hid]
  | some ports =>
    have hk3 : ∀ pv ∈ ports, k ≠ portKey t pv.1 :=
      fun pv _ h => hk (Or.inr (Or.inr ⟨pv.1, h⟩))
    have hmain : portsBlock raw d t
        = if 0 < getInt (portEntries t ports (Dict.insert d (totalKey t) (.int 0))) (totalKey t)
          then Dict.insert (portEntries t ports (Dict.insert d (totalKey t) (.int 0))) t (.bool true)
          else portEntries t ports (Dict.insert d (totalKey t) (.int 0)) := by
      unfold portsBlock; rw [hf]
    rw [hmain]
    by_cases hpos :
        0 < getInt (portEntries t ports (Dict.insert d (totalKey t) (.int 0))) (totalKey t)
    · rw [if_pos hpos, Dict.lookup_insert_ne _ _ _ _ (Ne.symm hk1),
        portEntries_frame t ports _ k hk2 hk3,
        Dict.lookup_insert_ne _ _ _ _ (Ne.symm hk2)]
    · rw [if_neg hpos, portEntries_frame t ports _ k hk2 hk3,
        Dict.lookup_insert_ne _ _ _ _ (Ne.symm hk2)]

theorem portsBlock_spec (raw : PortsRaw) (d : Dict) (t : String) (ports : PortData)
    (hfound : portsLookup raw t = some ports)
    (hnodup : (ports.map (fun pv => pv.1)).Nodup)
    (hd : Dict.lookup d t = none) :
    Dict.lookup (portsBlock raw d t) (totalKey t) = some (.int ((ports.map Prod.snd).sum)) ∧
    (∀ pv ∈ ports, Dict.lookup (portsBlock raw d t) (portKey t pv.1) = some (.int pv.2)) ∧
    (0 < (ports.map Prod.snd).sum → Dict.lookup (portsBlock raw d t) t = some (.bool true)) ∧
    ((ports.map Prod.snd).sum ≤ 0 → Dict.lookup (portsBlock raw d t) t = none) := by
  obtain ⟨htot, hper⟩ :=
    portEntries_spec t ports (Dict.insert d (totalKey t) (.int 0)) 0 hnodup
      (Dict.lookup_insert_self _ _ _)
  rw [Int.zero_add] at htot
  have hg : getInt (portEntries t ports (Dict.insert d (totalKey t) (.int 0))) (totalKey t)
      = (ports.map Prod.snd).sum := by
    simp only [getInt, htot]
  have hlt : Dict.lookup (portEntries t ports (Dict.insert d (totalKey t) (.int 0))) t
      = none := by
    rw [portEntries_frame t ports _ t (ne_totalKey_self t) (fun pv _ => ne_portKey_self t pv.1),
      Dict.lookup_insert_ne _ _ _ _ (Ne.symm (ne_totalKey_self t))]
    exact hd
  have hmain : portsBlock raw d t
      = if 0 < getInt (portEntries t ports (Dict.insert d (totalKey t) (.int 0))) (totalKey t)
        then Dict.insert (portEntries t ports (Dict.insert d (totalKey t) (.int 0))) t (.bool true)
        else portEntries t ports (Dict.insert d (totalKey t) (.int 0)) := by
    unfold portsBlock
    rw [hfound]
  rw [hmain, hg]
  by_cases hpos : 0 < (ports.map Prod.snd).sum
  · rw [if_pos hpos]
    refine ⟨?_, ?_, fun _ => Dict.lookup_insert_self _ _ _, fun hle => absurd hpos (by omega)⟩
    · rw [Dict.lookup_insert_ne _ _ _ _ (ne_totalKey_self t)]
      exact htot
    · intro pv hpv
      rw [Dict.lookup_insert_ne _ _ _ _ (ne_portKey_self t pv.1)]
      exact hper pv hpv
  · rw [if_neg hpos]
    exact ⟨htot, hper, fun h => absurd h hpos, fun _ => hlt⟩

theorem portsTypeSpec_frame (raw : PortsRaw) (d : Dict) (t t' : String)
    (hdis : ∀ k, isBlockKey t k → ¬ isBlockKey t' k)
    (hspec : portsTypeSpec raw d t) : portsTypeSpec raw (portsBlock raw d t') t := by
  unfold portsTypeSpec at hspec ⊢
  cases hf : portsLookup raw t with
  | some ports =>
    rw [hf] at hspec
    obtain ⟨h1, h2, h3, h4⟩ := hspec
    refine ⟨?_, ?_, ?_, ?_⟩
    · rw [portsBlock_frame raw d t' _ (hdis _ (Or.inr (Or.inl rfl)))]; exact h1
    · intro pv hpv
      rw [portsBlock_frame raw d t' _ (hdis _ (Or.inr (Or.inr ⟨pv.1, rfl⟩)))]
      exact h2 pv hpv
    · intro hpos
      rw [portsBlock_frame raw d t' _ (hdis _ (Or.inl rfl))]; exact h3 hpos
    · intro hle
      rw [portsBlock_frame raw d t' _ (hdis _ (Or.inl rfl))]; exact h4 hle
  | none =>
    rw [hf] at hspec
    obtain ⟨h1, h2, h3⟩ := hspec
    refine ⟨?_, ?_, ?_⟩
    · rw [portsBlock_frame raw d t' _ (hdis _ (Or.inl rfl))]; exact h1
    · rw [portsBlock_frame raw d t' _ (hdis _ (Or.inr (Or.inl rfl)))]; exact h2
    · intro p
      rw [portsBlock_frame raw d t' _ (hdis _ (Or.inr (Or.inr ⟨p, rfl⟩)))]
      exact h3 p

theorem portsTypeSpec_establish (raw : PortsRaw) (d : Dict) (t : String)
    (hnodup : ∀ ts ∈ raw, ((ts.2).map (fun pv => pv.1)).Nodup)
    (hnone : ∀ k, isBlockKey t k → Dict.lookup d k = none) :
    portsTypeSpec raw (portsBlock raw d t) t := by
  unfold portsTypeSpec
  cases hf : portsLookup raw t with
  | some ports =>
    obtain ⟨q, hq1, hq2⟩ : ∃ q, raw.find? (fun p => p.1 = t) = some q ∧ q.2 = ports := by
      unfold portsLookup at hf
      cases hfind : raw.find? (fun p => p.1 = t) with
      | none => rw [hfind] at hf; simp at hf
      | some q => rw [hfind] at hf; simp at hf; exact ⟨q, rfl, hf⟩
    have hnd := hnodup q (List.mem_of_find?_eq_some hq1)
    rw [hq2] at hnd
    exact portsBlock_spec raw d t ports hf hnd (hnone t (Or.inl rfl))
  | none =>
    have hid : portsBlock raw d t = d := by unfold portsBlock; rw [hf]
    rw [hid]
    exact ⟨hnone t (Or.inl rfl), hnone _ (Or.inr (Or.inl rfl)),
      fun p => hnone _ (Or.inr (Or.inr ⟨p, rfl⟩))⟩

theorem lan_usb_disjoint : ∀ k, isBlockKey "LAN" k → ¬ isBlockKey "USB" k :=
  fun k hk => blockKey_disjoint "USB" "LAN" 'U' 'L' ['S', 'B'] ['A', 'N']
    (by decide) (by decide) (by decide) k hk

theorem lan_wan_disjoint : ∀ k, isBlockKey "LAN" k → ¬ isBlockKey "WAN" k :=
  fun k hk => blockKey_disjoint "WAN" "LAN" 'W' 'L' ['A', 'N'] ['A', 'N']
    (by decide) (by decide) (by decide) k hk

theorem usb_lan_disjoint : ∀ k, isBlockKey "USB" k → ¬ isBlockKey "LAN" k :=
  fun k hk => blockKey_disjoint "LAN" "USB" 'L' 'U' ['A', 'N'] ['S', 'B']
    (by decide) (by decide) (by decide) k hk

theorem usb_wan_disjoint : ∀ k, isBlockKey "USB" k → ¬ isBlockKey "WAN" k :=
  fun k hk => blockKey_disjoint "WAN" "USB" 'W' 'U' ['A', 'N'] ['S', 'B']
    (by decide) (by decide) (by decide) k hk

theorem wan_lan_disjoint : ∀ k, isBlockKey "WAN" k → ¬ isBlockKey "LAN" k :=
  fun k hk => blockKey_disjoint "LAN" "WAN" 'L' 'W' ['A', 'N'] ['A', 'N']
    (by decide) (by decide) (by decide) k hk

theorem wan_usb_disjoint : ∀ k, isBlockKey "WAN" k → ¬ isBlockKey "USB" k :=
  fun k hk => blockKey_disjoint "USB" "WAN" 'U' 'W' ['S', 'B'] ['A', 'N']
    (by decide) (by decide) (by decide) k hk

/-- C9: for every port type in `SENSORS_PORTS` present in the SDK's port
data, `_get_ports` returns a `{type}_total` entry equal to the sum of that
type's per-port values, one `{type}_{port}` entry per port holding its
value, and a bare-type entry equal to `True` exactly when that sum is
positive (absent when it is not); port types absent from the SDK data
contribute no entries. -/
theorem get_ports_spec (raw : PortsRaw)
    (hnodup : ∀ ts ∈ raw, ((ts.2).map (fun pv => pv.1)).Nodup) :
    ∃ data, _get_ports (.ok raw) = .ok data ∧
      ∀ t ∈ SENSORS_PORTS, portsTypeSpec raw data t := by
  refine ⟨portsBlock raw (portsBlock raw (portsBlock raw [] "LAN") "USB") "WAN", rfl, ?_⟩
  intro t ht
  have hlan : portsTypeSpec raw (portsBlock raw [] "LAN") "LAN" :=
    portsTypeSpec_establish raw [] "LAN" hnodup (fun k _ => rfl)
  simp only [SENSORS_PORTS, List.mem_cons, List.not_mem_nil, or_false] at ht
  rcases ht with rfl | rfl | rfl
  · exact portsTypeSpec_frame raw _ "LAN" "WAN" lan_wan_disjoint
      (portsTypeSpec_frame raw _ "LAN" "USB" lan_usb_disjoint hlan)
  · have husb : portsTypeSpec raw (portsBlock raw (portsBlock raw [] "LAN") "USB") "USB" :=
      portsTypeSpec_establish raw _ "USB" hnodup
        (fun k hk => by
          rw [portsBlock_frame raw [] "LAN" k (usb_lan_disjoint k hk)]; rfl)
    exact portsTypeSpec_frame raw _ "USB" "WAN" usb_wan_disjoint husb
  · exact portsTypeSpec_establish raw _ "WAN" hnodup
      (fun k hk => by
        rw [portsBlock_frame raw _ "USB" k (wan_usb_disjoint k hk),
          portsBlock_frame raw [] "LAN" k (wan_lan_disjoint k hk)]; rfl)

/-- Witness for C9: `get_ports_spec` applied to concrete SDK port data. -/
theorem get_ports_spec_witness :
    ∃ data, _get_ports (.ok [("LAN", [(1, 2), (2, 3)]), ("USB", [(4, 0)])]) = .ok data ∧
      ∀ t ∈ SENSORS_PORTS,
        portsTypeSpec [("LAN", [(1, 2), (2, 3)]), ("USB", [(4, 0)])] data t :=
  get_ports_spec _ (by decide)

theorem Store.read_write_self : ∀ (st : Store) (r : Nat) (d : Dict), r < st.length →
    Store.read (Store.write st r d) r = d
  | [], _, _, h => by simp at h
  | _ :: _, 0, _, _ => rfl
  | _ :: xs, r + 1, d, h => read_write_self xs r d (by simpa using h)

theorem Store.read_write_ne : ∀ (st : Store) (r r' : Nat) (d : Dict), r ≠ r' →
    Store.read (Store.write st r d) r' = Store.read st r'
  | [], _, _, _, _ => rfl
  | _ :: _, 0, 0, _, h => absurd rfl h
  | _ :: _, 0, _ + 1, _, _ => rfl
  | _ :: _, _ + 1, 0, _, _ => rfl
  | _ :: xs, r + 1, r' + 1, d, h =>
      read_write_ne xs r r' d (fun hh => h (by rw [hh]))

theorem Store.read_append_left : ∀ (st : Store) (d : Dict) (r : Nat), r < st.length →
    Store.read (st ++ [d]) r = Store.read st r
  | [], _, _, h => by simp at h
  | _ :: _, _, 0, _ => rfl
  | _ :: xs, d, r + 1, h => read_append_left xs d r (by simpa using h)

theorem Store.read_append_length : ∀ (st : Store) (d : Dict),
    Store.read (st ++ [d]) st.length = d
  | [], _ => rfl
  | _ :: xs, d => read_append_length xs d

/-! ## Claim theorems -/

/-- C2 (refuted): `_async_check_connection` constructs its bridge with the
name `config_flow.py` imports from the bridge module (`ARBridge`), but
that name is not among the names `bridge.py` defines, so the name does not
resolve — the import itself fails, and the construction cannot succeed. -/
theorem bridge_import_unresolved :
    configFlowBridgeImport ∉ bridgePyDefinedNames := by decide

/-- C5 counterexample: the claimed key surface is not the set the wizard's
forms collect, in both directions — it contains the monitor toggle, which
no form collects (`CONF_ENABLE_MONITOR`'s schema field is commented out of
`_create_form_operation_mode`), and it omits the device name
(`CONF_NAME`), which the name step's form collects into the persisted
options. -/
theorem wizard_keys_counterexample :
    (CONF_ENABLE_MONITOR ∈ claimedWizardKeys ∧
      CONF_ENABLE_MONITOR ∉ wizardCollectedKeys [] [] [] [] [] [] []) ∧
    (CONF_NAME ∈ wizardCollectedKeys [] [] [] [] [] [] [] ∧
      CONF_NAME ∉ claimedWizardKeys) := by decide

/-- C5 amended: the keys collected by the wizard's forms (discovery,
credentials, device, operation-mode, times, interfaces and name) are
exactly the claimed surface without the monitor toggle and with the device
name added. -/
theorem wizard_keys_amended (u₁ u₂ u₃ u₄ u₅ u₆ : Dict) (dflt : List String) :
    (wizardCollectedKeys u₁ u₂ u₃ u₄ u₅ u₆ dflt).toFinset
      = amendedWizardKeys.toFinset := by
  have h : wizardCollectedKeys u₁ u₂ u₃ u₄ u₅ u₆ dflt =
      [CONF_HOST, CONF_USERNAME, CONF_PASSWORD, CONF_SSL,
       CONF_USERNAME, CONF_PASSWORD, CONF_PORT, CONF_SSL, CONF_VERIFY_SSL, CONF_CERT_PATH,
       CONF_ENABLE_CONTROL,
       CONF_CACHE_TIME, CONF_SCAN_INTERVAL, CONF_CONSIDER_HOME,
       CONF_INTERFACES, CONF_NAME] := rfl
  rw [h]
  decide

/-- C6: `async_get_available_sensors` always returns a dictionary whose
key set is exactly the six sensor categories — CPU, RAM, network
statistics, miscellaneous, ports, WAN — each entry holding that category's
sensor list and its polling method. -/
theorem available_sensors_categories (cpuLabels netLabels : Except String (List String))
    (portsRaw : Except String PortsRaw) :
    ∃ cpu net ports,
      _get_cpu_sensors cpuLabels = .ok cpu ∧
      _get_network_stat_sensors netLabels = .ok net ∧
      _get_ports_sensors portsRaw = .ok ports ∧
      async_get_available_sensors cpuLabels netLabels portsRaw =
        .ok [(SENSORS_TYPE_CPU, ⟨cpu, .getCpu⟩),
             (SENSORS_TYPE_RAM, ⟨SENSORS_RAM, .getRam⟩),
             (SENSORS_TYPE_NETWORK_STAT, ⟨net, .getNetworkStat⟩),
             (SENSORS_TYPE_MISC, ⟨SENSORS_MISC, .getMisc⟩),
             (SENSORS_TYPE_PORTS, ⟨ports, .getPorts⟩),
             (SENSORS_TYPE_WAN, ⟨SENSORS_WAN, .getWan⟩)] := by
  cases cpuLabels <;> cases netLabels <;> cases portsRaw <;>
    exact ⟨_, _, _, rfl, rfl, rfl, rfl⟩

/-- C7: the wizard is a fixed linear sequence: with no form errors,
`async_select_step` advances each completed step to exactly its successor
in the step table; a `last_step` of None (or otherwise not a key of the
table) raises `ValueError`. -/
theorem flow_steps_linear :
    (∀ errors : Dict, _check_errors errors = false →
      selectStep flowSteps (some "discovery") errors = .ok .credentials ∧
      selectStep flowSteps (some "credentials") errors = .ok .operation_mode ∧
      selectStep flowSteps (some "device") errors = .ok .operation_mode ∧
      selectStep flowSteps (some "operation_mode") errors = .ok .times ∧
      selectStep flowSteps (some "times") errors = .ok .interfaces ∧
      selectStep flowSteps (some "interfaces") errors = .ok .name ∧
      selectStep flowSteps (some "name") errors = .ok .finish) ∧
    (∀ errors : Dict, ∃ m, selectStep flowSteps none errors = .error (.valueError m)) ∧
    (∀ (s : String) (errors : Dict), stepLookup flowSteps s = none →
      ∃ m, selectStep flowSteps (some s) errors = .error (.valueError m)) := by
  refine ⟨?_, fun errors => ⟨_, rfl⟩, ?_⟩
  · intro errors he
    have h1 : ∀ (s : String) (nxt : Step), (s = "") = False →
        stepLookup flowSteps s = some nxt →
        selectStep flowSteps (some s) errors = .ok nxt := by
      intro s nxt hs hlook
      simp [selectStep, hs, hlook, he]
    exact ⟨h1 _ _ (by simp) rfl, h1 _ _ (by simp) rfl, h1 _ _ (by simp) rfl,
      h1 _ _ (by simp) rfl, h1 _ _ (by simp) rfl, h1 _ _ (by simp) rfl,
      h1 _ _ (by simp) rfl⟩
  · intro s errors hs
    by_cases h : s = ""
    · subst h; exact ⟨_, rfl⟩
    · exact ⟨"Unknown value of last_step: " ++ s, by simp [selectStep, h, hs]⟩

/-- Witness for C7: the successor of the discovery step with no errors,
and the `ValueError`s for a missing and an unknown step name. -/
theorem flow_steps_linear_witness :
    selectStep flowSteps (some "discovery") [] = .ok .credentials ∧
    (∃ m, selectStep flowSteps none [] = .error (.valueError m)) ∧
    (∃ m, selectStep flowSteps (some "bogus") [] = .error (.valueError m)) :=
  ⟨(flow_steps_linear.1 [] (by decide)).1, flow_steps_linear.2.1 [],
   flow_steps_linear.2.2 "bogus" [] (by decide)⟩

/-- C4: each sensor-discovery operation (`_get_cpu_sensors`,
`_get_network_stat_sensors`, `_get_ports_sensors`,
`_async_get_network_interfaces`) catches any exception of the underlying
SDK call, logs it, and returns a safe default (`["total"]` for CPU
sensors, the empty discovered list for network-stat and port sensors, the
default interface list for interfaces) rather than propagating it. -/
theorem sensor_discovery_safe_defaults :
    (∀ e, _get_cpu_sensors (.error e) = .ok ["total"]) ∧
    (∀ r, ∃ l, _get_cpu_sensors r = .ok l) ∧
    (∀ e, _get_network_stat_sensors (.error e) = .ok []) ∧
    (∀ r, ∃ l, _get_network_stat_sensors r = .ok l) ∧
    (∀ e, _get_ports_sensors (.error e) = .ok []) ∧
    (∀ r, ∃ l, _get_ports_sensors r = .ok l) ∧
    (∀ (configs : Dict) e disc, Dict.member configs CONF_HOST = true →
      _async_get_network_interfaces configs (.error e) disc = .ok DELAULT_INTERFACES) ∧
    (∀ (configs : Dict) labels disc, Dict.member configs CONF_HOST = true →
      ∃ l, _async_get_network_interfaces configs labels disc = .ok l) := by
  refine ⟨fun e => rfl, ?_, fun e => rfl, ?_, fun e => rfl, ?_, ?_, ?_⟩
  · intro r; cases r <;> exact ⟨_, rfl⟩
  · intro r; cases r <;> exact ⟨_, rfl⟩
  · intro r; cases r <;> exact ⟨_, rfl⟩
  · intro configs e disc hm
    simp [_async_get_network_interfaces, hm]
  · intro configs labels disc hm
    cases labels with
    | error e => exact ⟨DELAULT_INTERFACES, by simp [_async_get_network_interfaces, hm]⟩
    | ok ls =>
      cases disc with
      | error e => exact ⟨DELAULT_INTERFACES, by simp [_async_get_network_interfaces, hm]⟩
      | ok u => exact ⟨ls, rfl⟩

/-- Witness for C4: interface discovery at a concrete configuration with
a failing SDK call returns the default interface list. -/
theorem sensor_discovery_safe_defaults_witness :
    _async_get_network_interfaces [(CONF_HOST, .str "router.local")]
      (.error "AsusRouterError") (.ok ()) = .ok DELAULT_INTERFACES :=
  sensor_discovery_safe_defaults.2.2.2.2.2.2.1
    [(CONF_HOST, .str "router.local")] "AsusRouterError" (.ok ()) (by decide)

theorem checkConnection_error_codes (st : Store) (cr orf : Nat) (simple : Bool)
    (oc : ConnectOutcome) (code : String)
    (h : (checkConnectionST st cr orf simple oc).2.1 = .ok (.errors code)) :
    code = RESULT_ERROR ∨ code = RESULT_WRONG_CREDENTIALS ∨
    code = RESULT_LOGIN_BLOCKED ∨ code = RESULT_CONNECTION_REFUSED ∨
    code = RESULT_UNKNOWN := by
  simp only [checkConnectionST, Store.alloc] at h
  split at h
  · simp only [Except.ok.injEq, CheckResult.errors.injEq] at h
    exact Or.inl h.symm
  · split at h
    · simp at h
    · cases oc with
      | connected serial => simp at h
      | loginError =>
          simp only [Except.ok.injEq, CheckResult.errors.injEq] at h
          exact Or.inr (Or.inl h.symm)
      | loginBlockError timeout =>
          simp only [Except.ok.injEq, CheckResult.errors.injEq] at h
          exact Or.inr (Or.inr (Or.inl h.symm))
      | connectionError =>
          simp only [Except.ok.injEq, CheckResult.errors.injEq] at h
          exact Or.inr (Or.inr (Or.inr (Or.inl h.symm)))
      | otherError =>
          simp only [Except.ok.injEq, CheckResult.errors.injEq] at h
          exact Or.inr (Or.inr (Or.inr (Or.inr h.symm)))

/-- C3: a credentials-step submission whose connection check returns an
error code other than wrong-credentials and login-blocked dispatches
through the step table's `credentials_error` entry to the complete
device-setup step; with wrong-credentials or login-blocked the credentials
form is shown again carrying that error. -/
theorem credentials_error_branching :
    (∀ (st : Store) (cr orf : Nat) (simple : Bool) (oc : ConnectOutcome) (code : String),
      (checkConnectionST st cr orf simple oc).2.1 = .ok (.errors code) →
      code ≠ RESULT_WRONG_CREDENTIALS → code ≠ RESULT_LOGIN_BLOCKED →
      stepCredentialsSubmit (.errors code) = .ok (.goToStep .device)) ∧
    stepLookup flowSteps "credentials_error" = some .device ∧
    stepCredentialsSubmit (.errors RESULT_WRONG_CREDENTIALS)
      = .ok (.showForm "credentials" [("base", .str RESULT_WRONG_CREDENTIALS)]) ∧
    stepCredentialsSubmit (.errors RESULT_LOGIN_BLOCKED)
      = .ok (.showForm "credentials" [("base", .str RESULT_LOGIN_BLOCKED)]) := by
  refine ⟨?_, by decide, rfl, rfl⟩
  intro st cr orf simple oc code h hw hb
  have hc : code = RESULT_ERROR ∨ code = RESULT_CONNECTION_REFUSED ∨
      code = RESULT_UNKNOWN := by
    rcases checkConnection_error_codes st cr orf simple oc code h with
      h' | h' | h' | h' | h'
    · exact Or.inl h'
    · exact absurd h' hw
    · exact absurd h' hb
    · exact Or.inr (Or.inl h')
    · exact Or.inr (Or.inr h')
  rcases hc with rfl | rfl | rfl <;> rfl

/-- Witness for C3: a connection check that ends in the unknown-error code
makes the credentials step dispatch to the device step. -/
theorem credentials_error_branching_witness :
    (checkConnectionST [[(CONF_HOST, .str "router.local")]] 0 0 false .otherError).2.1
      = .ok (.errors RESULT_UNKNOWN) ∧
    stepCredentialsSubmit (.errors RESULT_UNKNOWN) = .ok (.goToStep .device) :=
  ⟨rfl,
   credentials_error_branching.1 [[(CONF_HOST, .str "router.local")]] 0 0 false
     .otherError RESULT_UNKNOWN rfl (by decide) (by decide)⟩

theorem checkConnectionST_away (st : Store) (cr orf : Nat) (simple : Bool)
    (oc : ConnectOutcome) (r : Nat) (hne : st.length ≠ r) :
    Store.read (checkConnectionST st cr orf simple oc).1 r
      = Store.read (st ++ [Store.read st cr]) r := by
  simp only [checkConnectionST, Store.alloc]
  split
  · exact Store.read_write_ne _ _ _ _ hne
  · split
    next e heq => exact Store.read_write_ne _ _ _ _ hne
    next st3 heq =>
      have h3 : Store.read st3 r = Store.read (st ++ [Store.read st cr]) r := by
        split at heq
        · split at heq
          · cases heq
          · cases heq
            rw [Store.read_write_ne _ _ _ _ hne]
            exact Store.read_write_ne _ _ _ _ hne
        · cases heq
          exact Store.read_write_ne _ _ _ _ hne
      cases oc with
      | connected serial => exact (Store.read_write_ne _ _ _ _ hne).trans h3
      | loginError => exact h3
      | loginBlockError t => exact h3
      | connectionError => exact h3
      | otherError => exact h3

/-- C10: `_async_check_connection` never mutates the configs and options
dictionaries its caller passes: it works on a copy of configs updated with
options, so both argument dictionaries hold the same entries after the
call as before it. -/
theorem check_connection_preserves_arguments (st : Store) (cr orf : Nat)
    (simple : Bool) (oc : ConnectOutcome)
    (hcr : cr < st.length) (hor : orf < st.length) :
    Store.read (checkConnectionST st cr orf simple oc).1 cr = Store.read st cr ∧
    Store.read (checkConnectionST st cr orf simple oc).1 orf = Store.read st orf := by
  constructor
  · rw [checkConnectionST_away st cr orf simple oc cr (by omega),
      Store.read_append_left _ _ _ hcr]
  · rw [checkConnectionST_away st cr orf simple oc orf (by omega),
      Store.read_append_left _ _ _ hor]

/-- Witness for C10: a concrete store with distinct configs and options
dictionaries is unchanged at both references by a successful check. -/
theorem check_connection_preserves_arguments_witness :
    Store.read (checkConnectionST [[(CONF_HOST, .str "router.local")],
      [(CONF_SSL, .bool true)]] 0 1 false (.connected (some "S1"))).1 0
      = Store.read [[(CONF_HOST, .str "router.local")], [(CONF_SSL, .bool true)]] 0 ∧
    Store.read (checkConnectionST [[(CONF_HOST, .str "router.local")],
      [(CONF_SSL, .bool true)]] 0 1 false (.connected (some "S1"))).1 1
      = Store.read [[(CONF_HOST, .str "router.local")], [(CONF_SSL, .bool true)]] 1 :=
  check_connection_preserves_arguments _ 0 1 false (.connected (some "S1"))
    (by decide) (by decide)

/-- C8: when `CONF_HOST` is absent from the merged configs-and-options
dictionary, `_async_check_connection` returns `{"errors": RESULT_ERROR}`
immediately: no bridge is constructed and no connection is attempted. -/
theorem check_connection_missing_host (st : Store) (cr orf : Nat) (simple : Bool)
    (oc : ConnectOutcome) (hcr : cr < st.length) (hor : orf < st.length)
    (hmiss : Dict.member (Dict.update (Store.read st cr) (Store.read st orf))
      CONF_HOST = false) :
    (checkConnectionST st cr orf simple oc).2.1 = .ok (.errors RESULT_ERROR) ∧
    (checkConnectionST st cr orf simple oc).2.2 = [] := by
  have hread : Store.read (Store.write (st ++ [Store.read st cr]) st.length
        (Dict.update (Store.read (st ++ [Store.read st cr]) st.length)
          (Store.read (st ++ [Store.read st cr]) orf))) st.length
      = Dict.update (Store.read st cr) (Store.read st orf) := by
    rw [Store.read_write_self _ _ _ (by simp), Store.read_append_length,
      Store.read_append_left _ _ _ hor]
  constructor <;>
    · simp only [checkConnectionST, Store.alloc]
      rw [hread, if_pos hmiss]

/-- Witness for C8: a store whose merged dictionaries lack the host key
yields the error result with an empty effect trace. -/
theorem check_connection_missing_host_witness :
    (checkConnectionST [[(CONF_USERNAME, .str "admin")], []] 0 1 false .loginError).2.1
      = .ok (.errors RESULT_ERROR) ∧
    (checkConnectionST [[(CONF_USERNAME, .str "admin")], []] 0 1 false .loginError).2.2
      = [] :=
  check_connection_missing_host _ 0 1 false .loginError (by decide) (by decide) (by decide)

/-- C1: whenever the bridge's `async_connect` raises inside
`_async_check_connection`, the exception is caught and mapped by type to
the matching form error code (`connectErrorCode`), and no such exception
propagates to the caller. -/
theorem check_connection_maps_exceptions (st : Store) (cr orf : Nat) (simple : Bool)
    (oc : ConnectOutcome) (code : String)
    (hcr : cr < st.length) (hor : orf < st.length)
    (hhost : Dict.member (Dict.update (Store.read st cr) (Store.read st orf))
      CONF_HOST = true)
    (hssl : simple = true →
      ∃ v, Dict.lookup (Dict.update (Store.read st cr) (Store.read st orf)) CONF_SSL
        = some v)
    (hcode : connectErrorCode oc = some code) :
    (checkConnectionST st cr orf simple oc).2.1 = .ok (.errors code) ∧
    (checkConnectionST st cr orf simple oc).2.2
      = [.bridgeConstructed, .connectAttempted, .cleaned] := by
  have hread : Store.read (Store.write (st ++ [Store.read st cr]) st.length
        (Dict.update (Store.read (st ++ [Store.read st cr]) st.length)
          (Store.read (st ++ [Store.read st cr]) orf))) st.length
      = Dict.update (Store.read st cr) (Store.read st orf) := by
    rw [Store.read_write_self _ _ _ (by simp), Store.read_append_length,
      Store.read_append_left _ _ _ hor]
  have hne : ¬ (Dict.member (Dict.update (Store.read st cr) (Store.read st orf))
      CONF_HOST = false) := by
    rw [hhost]; simp
  cases oc with
  | connected serial => simp [connectErrorCode] at hcode
  | loginError =>
      simp only [connectErrorCode, Option.some.injEq] at hcode
      subst hcode
      simp only [checkConnectionST, Store.alloc]
      rw [hread, if_neg hne]
      by_cases hs : simple
      · obtain ⟨v, hv⟩ := hssl hs
        rw [if_pos hs, hv]
        exact ⟨rfl, rfl⟩
      · rw [if_neg hs]
        exact ⟨rfl, rfl⟩
  | loginBlockError t =>
      simp only [connectErrorCode, Option.some.injEq] at hcode
      subst hcode
      simp only [checkConnectionST, Store.alloc]
      rw [hread, if_neg hne]
      by_cases hs : simple
      · obtain ⟨v, hv⟩ := hssl hs
        rw [if_pos hs, hv]
        exact ⟨rfl, rfl⟩
      · rw [if_neg hs]
        exact ⟨rfl, rfl⟩
  | connectionError =>
      simp only [connectErrorCode, Option.some.injEq] at hcode
      subst hcode
      simp only [checkConnectionST, Store.alloc]
      rw [hread, if_neg hne]
      by_cases hs : simple
      · obtain ⟨v, hv⟩ := hssl hs
        rw [if_pos hs, hv]
        exact ⟨rfl, rfl⟩
      · rw [if_neg hs]
        exact ⟨rfl, rfl⟩
  | otherError =>
      simp only [connectErrorCode, Option.some.injEq] at hcode
      subst hcode
      simp only [checkConnectionST, Store.alloc]
      rw [hread, if_neg hne]
      by_cases hs : simple
      · obtain ⟨v, hv⟩ := hssl hs
        rw [if_pos hs, hv]
        exact ⟨rfl, rfl⟩
      · rw [if_neg hs]
        exact ⟨rfl, rfl⟩

/-- Witness for C1: a login error during a simplified-setup check at a
concrete configuration yields the wrong-credentials code and no raised
exception. -/
theorem check_connection_maps_exceptions_witness :
    (checkConnectionST [[(CONF_HOST, .str "router.local"), (CONF_SSL, .bool false)],
      []] 0 1 true .loginError).2.1 = .ok (.errors RESULT_WRONG_CREDENTIALS) ∧
    (checkConnectionST [[(CONF_HOST, .str "router.local"), (CONF_SSL, .bool false)],
      []] 0 1 true .loginError).2.2
      = [.bridgeConstructed, .connectAttempted, .cleaned] :=
  check_connection_maps_exceptions _ 0 1 true .loginError RESULT_WRONG_CREDENTIALS
    (by decide) (by decide) (by decide)
    (fun _ => ⟨.bool false, by decide⟩) (by decide)

end AsusRouter
